import Mathlib

/-!
Verification of the CKAN Elasticsearch search adapter
(`ckan/lib/search/elasticsearch/`): a shallow embedding of
`common.py` (settings and connection factory), `__init__.py` and
`index.py` (index writers), and `query.py` (query runner), together
with theorems settling the specification's claims about them.

Documents are flat string-to-string mappings; the engine index is a
finite store of documents keyed either by an explicit id or by an
engine-generated key (the Elasticsearch `index` API without an `id`
auto-generates the key).  Remote calls are traced so that call-count
claims can be stated, and each remote primitive takes an optional
injected engine exception so that error-wrapping claims quantify over
every engine-level failure.
-/

/-- Python exceptions that the adapter raises locally.
`SearchIndexError` is `ckan.lib.search.common.SearchIndexError`
(raised in `common.py` and `index.py`); `ElasticsearchIndexError` is
defined and raised in `__init__.py`; `engine e` is an engine-client
exception escaping unwrapped (no local handler). -/
inductive PyErr where
  | SearchIndexError (msg : String)
  | ElasticsearchIndexError (msg : String)
  | engine (msg : String)
deriving DecidableEq, Repr

/-! ## common.py : settings resolver and connection factory -/

def DEFAULT_ELASTICSEARCH_URL : String := "http://127.0.0.1:9200"

/-- The class attributes of `SearchEngineSettings` (process-wide
singleton state in the source; here passed explicitly). -/
structure SearchEngineSettings where
  is_initialised : Bool
  url : Option String
  user : Option String
  password : Option String
deriving DecidableEq, Repr

/-- The state before any call: the class-attribute defaults. -/
def SearchEngineSettings.initial : SearchEngineSettings :=
  { is_initialised := false, url := none, user := none, password := none }

/-- `SearchEngineSettings.init(url=None, user=None, password=None)`:
when `url is not None` all three are stored; otherwise only the URL is
set, to the built-in default.  In both branches the initialised flag
is set. -/
def SearchEngineSettings.init (cls : SearchEngineSettings)
    (url user password : Option String) : SearchEngineSettings :=
  match url with
  | some u =>
      { cls with url := some u, user := user, password := password,
                 is_initialised := true }
  | none =>
      { cls with url := some DEFAULT_ELASTICSEARCH_URL,
                 is_initialised := true }

/-- Python truthiness of an optional string: `None` and `''` are falsy. -/
def optTruthy : Option String → Bool
  | none => false
  | some s => s ≠ ""

/-- `SearchEngineSettings.get()`: raises `SearchIndexError` when not
initialised, raises when the stored URL is falsy (`None` or blank),
else returns the `(url, user, password)` triple. -/
def SearchEngineSettings.get (cls : SearchEngineSettings) :
    Except PyErr (String × Option String × Option String) :=
  if !cls.is_initialised then
    .error (.SearchIndexError "Elasticsearch URL not initialised")
  else if !optTruthy cls.url then
    .error (.SearchIndexError "Elasticsearch URL is blank")
  else
    .ok (cls.url.getD "", cls.user, cls.password)

/-- An Elasticsearch client handle as built by `make_connection`. -/
structure Connection where
  hosts : List String
  http_auth : Option (String × String)
  connection_timeout : Nat
deriving DecidableEq, Repr

/-- `make_connection()` (common.py): resolves settings first — any
settings failure propagates before a client is built — then builds the
client with HTTP auth exactly when url, user and password are all
truthy, and applies the configured timeout. -/
def make_connection (settings : SearchEngineSettings) (timeout : Nat) :
    Except PyErr Connection := do
  let (es_url, es_user, es_password) ← settings.get
  if es_url ≠ "" && optTruthy es_user && optTruthy es_password then
    return { hosts := [es_url],
             http_auth := some (es_user.getD "", es_password.getD ""),
             connection_timeout := timeout }
  else
    return { hosts := [es_url], http_auth := none,
             connection_timeout := timeout }

/-! ## The engine: documents, index state, remote calls -/

/-- A document: a flat mapping of field name to value, as the Python
dicts handed to the index writers. -/
abbrev Doc := List (String × String)

/-- `d.get(k)` on a Python dict: first binding wins, absent gives none. -/
def Doc.get (d : Doc) (k : String) : Option String :=
  (d.find? (fun kv => kv.1 = k)).map (·.2)

/-- `','.join(d.keys())`. -/
def Doc.keysJoined (d : Doc) : String :=
  String.intercalate "," (d.map (·.1))

/-- Set one field, replacing an existing binding of the same name. -/
def Doc.setField (d : Doc) (k v : String) : Doc :=
  match d with
  | [] => [(k, v)]
  | kv :: rest =>
      if kv.1 = k then (k, v) :: rest else kv :: Doc.setField rest k v

/-- The Elasticsearch `update` API merges the partial document `upd`
into the stored document `old`. -/
def Doc.merge (old upd : Doc) : Doc :=
  upd.foldl (fun acc kv => acc.setField kv.1 kv.2) old

/-- The key under which the engine stores a document: the explicit id
passed to the `index`/`update`/`delete` APIs, or an auto-generated key
when `index` is called without an id. -/
inductive DocKey where
  | named (id : String)
  | auto (n : Nat)
deriving DecidableEq, Repr

/-- The documents held by the engine's index. -/
structure ESIndexState where
  docs : List (DocKey × Doc)
  nextAuto : Nat
deriving DecidableEq, Repr

def ESIndexState.empty : ESIndexState := { docs := [], nextAuto := 0 }

/-- Look up the document stored under explicit id `id`. -/
def ESIndexState.lookupNamed (s : ESIndexState) (id : String) : Option Doc :=
  (s.docs.find? (fun kd => kd.1 = DocKey.named id)).map (·.2)

/-- Drop any document stored under explicit id `id`. -/
def ESIndexState.removeNamed (s : ESIndexState) (id : String) : ESIndexState :=
  { s with docs := s.docs.filter (fun kd => ¬ kd.1 = DocKey.named id) }

/-- How many stored copies are keyed by explicit id `id`. -/
def ESIndexState.countNamed (s : ESIndexState) (id : String) : Nat :=
  (s.docs.filter (fun kd => kd.1 = DocKey.named id)).length

/-- `index` with an explicit id: upsert keyed by that id. -/
def ESIndexState.put (s : ESIndexState) (id : String) (d : Doc) : ESIndexState :=
  { s with docs := (DocKey.named id, d) :: (s.removeNamed id).docs }

/-- `index` without an id: store under a fresh auto-generated key. -/
def ESIndexState.insertAuto (s : ESIndexState) (d : Doc) : ESIndexState :=
  { docs := (DocKey.auto s.nextAuto, d) :: s.docs, nextAuto := s.nextAuto + 1 }

/-- Delete every document, keeping the auto-key counter. -/
def ESIndexState.clearDocs (s : ESIndexState) : ESIndexState :=
  { docs := [], nextAuto := s.nextAuto }

/-- One remote call issued against the engine.  `indexDoc`,
`updateDoc` and `deleteDoc` are document-level calls; the others are
index-level. -/
inductive RemoteCall where
  | indexDoc (id : Option String)
  | updateDoc (id : String)
  | deleteDoc (id : String)
  | refresh
  | indicesDelete
  | indicesCreate
deriving DecidableEq, Repr

/-- Is this a document-level remote call? -/
def RemoteCall.isDocCall : RemoteCall → Bool
  | .indexDoc _ => true
  | .updateDoc _ => true
  | .deleteDoc _ => true
  | _ => false

/-- An exception raised by the engine client: the engine's not-found
error, or any other engine-level failure carrying its message. -/
inductive ESException where
  | NotFoundError
  | other (msg : String)
deriving DecidableEq, Repr

/-- `str(e)` for an engine exception, interpolated into the local
error messages. -/
def ESException.message : ESException → String
  | .NotFoundError => "NotFoundError(404, not_found)"
  | .other m => m

/-- The engine plus the adapter's observable behaviour: the index
contents, the trace of remote calls issued (most recent first) and the
log lines emitted. -/
structure Engine where
  idx : ESIndexState
  trace : List RemoteCall
  logs : List String
deriving DecidableEq, Repr

def Engine.empty : Engine := { idx := ESIndexState.empty, trace := [], logs := [] }

def Engine.record (eng : Engine) (c : RemoteCall) : Engine :=
  { eng with trace := c :: eng.trace }

def Engine.log (eng : Engine) (m : String) : Engine :=
  { eng with logs := m :: eng.logs }

/-- Number of document-level remote calls issued so far. -/
def Engine.docCalls (eng : Engine) : Nat :=
  (eng.trace.filter RemoteCall.isDocCall).length

/-- Number of refresh calls issued so far. -/
def Engine.refreshCalls (eng : Engine) : Nat :=
  (eng.trace.filter (fun c => c = RemoteCall.refresh)).length

/-! ### The engine client primitives

Each primitive records the call it issues and takes an optional
injected engine exception `fault`; `fault = some e` means the remote
call raised `e`, `fault = none` means the engine behaved normally (in
which case `update`/`delete` still raise the not-found error when the
id is absent, as the real engine does). -/

/-- `es.index(index=..., id=..., document=...)`: upsert when an id is
given, insert under an auto-generated key otherwise. -/
def es_index (eng : Engine) (id : Option String) (doc : Doc)
    (fault : Option ESException) : Engine × Except ESException Unit :=
  let eng1 := eng.record (.indexDoc id)
  match fault with
  | some e => (eng1, .error e)
  | none =>
    match id with
    | some i => ({ eng1 with idx := eng1.idx.put i doc }, .ok ())
    | none => ({ eng1 with idx := eng1.idx.insertAuto doc }, .ok ())

/-- `es.update(index=..., id=..., doc=...)`: client-side error when the
id is `None` (no remote call issued), not-found when the id is absent,
else merge the partial document into the stored one. -/
def es_update (eng : Engine) (id : Option String) (doc : Doc)
    (fault : Option ESException) : Engine × Except ESException Unit :=
  match id with
  | none => (eng, .error (.other "Empty value passed for a required argument id"))
  | some i =>
    let eng1 := eng.record (.updateDoc i)
    match fault with
    | some e => (eng1, .error e)
    | none =>
      match eng1.idx.lookupNamed i with
      | some old => ({ eng1 with idx := eng1.idx.put i (Doc.merge old doc) }, .ok ())
      | none => (eng1, .error .NotFoundError)

/-- `es.delete(index=..., id=...)`: client-side error when the id is
`None`, not-found when absent, else remove the document. -/
def es_delete (eng : Engine) (id : Option String)
    (fault : Option ESException) : Engine × Except ESException Unit :=
  match id with
  | none => (eng, .error (.other "Empty value passed for a required argument id"))
  | some i =>
    let eng1 := eng.record (.deleteDoc i)
    match fault with
    | some e => (eng1, .error e)
    | none =>
      match eng1.idx.lookupNamed i with
      | some _ => ({ eng1 with idx := eng1.idx.removeNamed i }, .ok ())
      | none => (eng1, .error .NotFoundError)

/-- `es.indices.refresh(index=...)`: no effect on the stored documents. -/
def es_refresh (eng : Engine) (fault : Option ESException) :
    Engine × Except ESException Unit :=
  let eng1 := eng.record .refresh
  match fault with
  | some e => (eng1, .error e)
  | none => (eng1, .ok ())

/-- `es.indices.delete(index=..., ignore=[400, 404])` as issued by both
`clear` methods: a not-found status is ignored by the client, any
other engine failure raises, success drops every document. -/
def es_indices_delete (eng : Engine) (fault : Option ESException) :
    Engine × Except ESException Unit :=
  let eng1 := eng.record .indicesDelete
  match fault with
  | some .NotFoundError => (eng1, .ok ())
  | some e => (eng1, .error e)
  | none => ({ eng1 with idx := eng1.idx.clearDocs }, .ok ())

/-- `es.indices.create(index=...)`: recreate the (empty) index. -/
def es_indices_create (eng : Engine) (fault : Option ESException) :
    Engine × Except ESException Unit :=
  let eng1 := eng.record .indicesCreate
  match fault with
  | some e => (eng1, .error e)
  | none => ({ eng1 with idx := eng1.idx.clearDocs }, .ok ())

/-! ## index.py : the `SearchIndex` / `PackageSearchIndex` writers

Namespace `IndexMod` embeds `ckan/lib/search/elasticsearch/index.py`. -/

namespace IndexMod

/-- `SearchIndex.update_dict` (index.py): a no-op that logs the keys
of the document and issues no remote call. -/
def SearchIndex.update_dict (eng : Engine) (data : Doc)
    (defer_commit : Bool) : Engine × Except PyErr Unit :=
  (eng.log ("NOOP Index: " ++ data.keysJoined), .ok ())

/-- `SearchIndex.insert_dict` (index.py): delegates to `update_dict`
with the default `defer_commit = False`. -/
def SearchIndex.insert_dict (eng : Engine) (data : Doc) :
    Engine × Except PyErr Unit :=
  SearchIndex.update_dict eng data false

/-- `SearchIndex.remove_dict` (index.py): a no-op that logs the keys
of the document and issues no remote call. -/
def SearchIndex.remove_dict (eng : Engine) (data : Doc) :
    Engine × Except PyErr Unit :=
  (eng.log ("NOOP Delete: " ++ data.keysJoined), .ok ())

/-- `SearchIndex.clear` (index.py): delete-and-recreate the index with
no exception handler, so an engine failure escapes unwrapped. -/
def SearchIndex.clear (eng : Engine) (fDelete fCreate : Option ESException) :
    Engine × Except PyErr Unit :=
  match es_indices_delete eng fDelete with
  | (eng1, .error e) => (eng1, .error (.engine e.message))
  | (eng1, .ok ()) =>
    match es_indices_create eng1 fCreate with
    | (eng2, .error e) => (eng2, .error (.engine e.message))
    | (eng2, .ok ()) => (eng2, .ok ())

/-- `NoopSearchIndex` (index.py) adds nothing: its `remove_dict` is
the base class's logging no-op. -/
def NoopSearchIndex.remove_dict (eng : Engine) (data : Doc) :
    Engine × Except PyErr Unit :=
  SearchIndex.remove_dict eng data

/-- `PackageSearchIndex.index_package` (index.py): returns at once on
`None`; otherwise one `es.index` call keyed by `pkg_dict['id']`
followed, unless `defer_commit`, by one refresh; any exception in the
body (including the `KeyError` when the dict has no id) is logged and
re-raised as `SearchIndexError` carrying the original message. -/
def PackageSearchIndex.index_package (eng : Engine) (pkg_dict : Option Doc)
    (defer_commit : Bool) (fIndex fRefresh : Option ESException) :
    Engine × Except PyErr Unit :=
  match pkg_dict with
  | none => (eng, .ok ())
  | some d =>
    match d.get "id" with
    | none =>
      (eng.log "KeyError: id",
       .error (.SearchIndexError "Error indexing package: KeyError: id"))
    | some did =>
      match es_index eng (some did) d fIndex with
      | (eng1, .error e) =>
        (eng1.log e.message,
         .error (.SearchIndexError ("Error indexing package: " ++ e.message)))
      | (eng1, .ok ()) =>
        if defer_commit then (eng1, .ok ())
        else
          match es_refresh eng1 fRefresh with
          | (eng2, .error e) =>
            (eng2.log e.message,
             .error (.SearchIndexError ("Error indexing package: " ++ e.message)))
          | (eng2, .ok ()) => (eng2, .ok ())

/-- `PackageSearchIndex.update_dict` (index.py): delegates to
`index_package`. -/
def PackageSearchIndex.update_dict (eng : Engine) (pkg_dict : Doc)
    (defer_commit : Bool) (fIndex fRefresh : Option ESException) :
    Engine × Except PyErr Unit :=
  PackageSearchIndex.index_package eng (some pkg_dict) defer_commit fIndex fRefresh

/-- `PackageSearchIndex.remove_dict` (index.py): one `es.delete` call
keyed by `pkg_dict['id']`.  The engine's not-found error is logged and
treated as a no-op.  When the delete succeeds, the body next evaluates
`if not defer_commit:` — but `defer_commit` is not a parameter of this
method, so Python raises `NameError`, which the broad handler wraps as
`SearchIndexError`; the refresh call is therefore never reached.  A
missing `'id'` key raises `KeyError`, also wrapped.  Any other engine
failure is wrapped carrying its message. -/
def PackageSearchIndex.remove_dict (eng : Engine) (pkg_dict : Doc)
    (fDelete : Option ESException) : Engine × Except PyErr Unit :=
  match pkg_dict.get "id" with
  | none =>
    (eng.log "KeyError: id",
     .error (.SearchIndexError "Error removing package: KeyError: id"))
  | some did =>
    match es_delete eng (some did) fDelete with
    | (eng1, .error .NotFoundError) =>
      (eng1.log ("Package " ++ did ++ " not found in Elasticsearch index."),
       .ok ())
    | (eng1, .error e) =>
      (eng1.log e.message,
       .error (.SearchIndexError ("Error removing package: " ++ e.message)))
    | (eng1, .ok ()) =>
      (eng1.log "NameError: name defer_commit is not defined",
       .error (.SearchIndexError
         "Error removing package: name defer_commit is not defined"))

end IndexMod

/-! ## \_\_init\_\_.py : the package-root writers and `index_for`

Namespace `InitMod` embeds `ckan/lib/search/elasticsearch/__init__.py`. -/

namespace InitMod

/-- `SearchIndex.insert_dict` (\_\_init\_\_.py): one `es.index` call
**without an id** — the engine generates the key — wrapping any
exception as `ElasticsearchIndexError` with the original message. -/
def SearchIndex.insert_dict (eng : Engine) (data_dict : Doc)
    (fIndex : Option ESException) : Engine × Except PyErr Unit :=
  match es_index eng none data_dict fIndex with
  | (eng1, .error e) =>
    (eng1, .error (.ElasticsearchIndexError
      ("Error inserting document: " ++ e.message)))
  | (eng1, .ok ()) => (eng1, .ok ())

/-- `SearchIndex.update_dict` (\_\_init\_\_.py): one `es.update` call
keyed by `data_dict.get('id')`; on the engine's not-found error it
falls back to `insert_dict` (a second remote call, inserting without
an id); any other exception is wrapped as `ElasticsearchIndexError`
with the original message. -/
def SearchIndex.update_dict (eng : Engine) (data_dict : Doc)
    (fUpdate fInsert : Option ESException) : Engine × Except PyErr Unit :=
  match es_update eng (data_dict.get "id") data_dict fUpdate with
  | (eng1, .error .NotFoundError) =>
    SearchIndex.insert_dict eng1 data_dict fInsert
  | (eng1, .error e) =>
    (eng1, .error (.ElasticsearchIndexError
      ("Error updating document: " ++ e.message)))
  | (eng1, .ok ()) => (eng1, .ok ())

/-- `SearchIndex.remove_dict` (\_\_init\_\_.py): one `es.delete` call
keyed by `data_dict.get('id')`; **every** exception — the engine's
not-found error included — is wrapped as `ElasticsearchIndexError`
and raised. -/
def SearchIndex.remove_dict (eng : Engine) (data_dict : Doc)
    (fDelete : Option ESException) : Engine × Except PyErr Unit :=
  match es_delete eng (data_dict.get "id") fDelete with
  | (eng1, .error e) =>
    (eng1, .error (.ElasticsearchIndexError
      ("Error removing document: " ++ e.message)))
  | (eng1, .ok ()) => (eng1, .ok ())

/-- `NoopSearchIndex.insert_dict` (\_\_init\_\_.py): overridden to
`pass` — no remote call, no log, no error. -/
def NoopSearchIndex.insert_dict (eng : Engine) (data_dict : Doc) :
    Engine × Except PyErr Unit :=
  (eng, .ok ())

/-- `NoopSearchIndex.update_dict` (\_\_init\_\_.py): overridden to `pass`. -/
def NoopSearchIndex.update_dict (eng : Engine) (data_dict : Doc) :
    Engine × Except PyErr Unit :=
  (eng, .ok ())

/-- `NoopSearchIndex.remove_dict` (\_\_init\_\_.py): overridden to `pass`. -/
def NoopSearchIndex.remove_dict (eng : Engine) (data_dict : Doc) :
    Engine × Except PyErr Unit :=
  (eng, .ok ())

/-- The classes `index_for` can return. -/
inductive IndexKind where
  | packageSearchIndex
  | noopSearchIndex
deriving DecidableEq, Repr

/-- The `_INDICES` registry: only `'package'` is registered. -/
def _INDICES : List (String × IndexKind) :=
  [("package", IndexKind.packageSearchIndex)]

/-- `index_for(_type)` (\_\_init\_\_.py): the registered class when the
type is in `_INDICES`, else a warning is logged and a
`NoopSearchIndex` is returned. -/
def index_for (ty : String) : IndexKind :=
  match _INDICES.find? (fun kv => kv.1 = ty) with
  | some kv => kv.2
  | none => IndexKind.noopSearchIndex

/-- `clear_all` (\_\_init\_\_.py): the first statement of its `try`
block reads the module-global name `es`, which is never defined in the
module (only the writer classes bind `self.es`), so every invocation
raises `NameError` there — before any remote call is issued — and the
broad `except Exception` handler catches it, logs it and returns
normally.  The function therefore never contacts the engine, changes
no state and raises nothing. -/
def clear_all (eng : Engine) : Engine × Except PyErr Unit :=
  (eng.log "Error clearing index: name es is not defined", .ok ())

end InitMod

/-! ## query.py : the query runner

Namespace `QueryMod` embeds `ckan/lib/search/elasticsearch/query.py`. -/

namespace QueryMod

/-- A query request mapping: the keys `run` reads (`q`, `fq`, `sort`,
`start`, `rows`, `facet`), each `none` when absent from the dict. -/
structure QueryRequest where
  q : Option String
  fq : Option (List Doc)
  sort : Option String
  start : Option Nat
  rows : Option Nat
  facet : Option Bool
deriving DecidableEq, Repr

/-- The query clause `run` constructs: `Q('multi_match', ...)` or
`Q('match_all')`. -/
inductive ESQuery where
  | multi_match (query : String) (fields : List String)
  | match_all
deriving DecidableEq, Repr

/-- The static field weights of the free-text clause. -/
def multiMatchFields : List String :=
  ["name^4", "title^4", "tags^2", "groups^2", "text"]

/-- The search object sent to the engine: query clause, term filters,
sort, `from_` and `size`. -/
structure SearchSpec where
  query : ESQuery
  filters : List Doc
  sort : Option String
  from_ : Option Nat
  size : Option Nat
deriving DecidableEq, Repr

/-- The engine's response to one execution: the hits (already shaped
as flat mappings, as `hit.to_dict()` yields) and the total hit count. -/
structure QueryResponse where
  hits : List Doc
  total : Nat
deriving DecidableEq, Repr

/-- The mapping `run` returns: exactly the keys `results`, `count`
and `facets`. -/
structure RunResult where
  results : List Doc
  count : Nat
  facets : List (String × List Doc)
deriving DecidableEq, Repr

/-- `PackageSearchQuery._process_facets`: a placeholder that returns
the empty mapping. -/
def PackageSearchQuery._process_facets (spec : SearchSpec)
    (response : QueryResponse) : List (String × List Doc) :=
  []

/-- `PackageSearchQuery.run` (query.py): builds the free-text
multi-match clause when `'q' in query and query['q']` (present and
non-empty), else match-all; applies each `fq` entry as an exact-match
filter; passes sort, offset and size through; executes once (`exec`
is the engine's evaluation of the search object); shapes hits and the
total count; calls the facet placeholder only when the facet flag is
truthy.  Returns the search object sent together with the result
mapping. -/
def PackageSearchQuery.run (query : QueryRequest)
    (exec : SearchSpec → QueryResponse) : SearchSpec × RunResult :=
  let q : ESQuery :=
    match query.q with
    | some s => if s ≠ "" then .multi_match s multiMatchFields else .match_all
    | none => .match_all
  let spec : SearchSpec :=
    { query := q,
      filters := query.fq.getD [],
      sort := query.sort,
      from_ := query.start,
      size := query.rows }
  let response := exec spec
  let facets : List (String × List Doc) :=
    match query.facet with
    | some b => if b then PackageSearchQuery._process_facets spec response else []
    | none => []
  (spec, { results := response.hits, count := response.total, facets := facets })

end QueryMod

/-- **C3** — In every state where `SearchEngineSettings.init` has never
been called (the class-attribute defaults, `initial`), `get` raises the
configuration error, and consequently `make_connection` — which resolves
settings before building any client — fails with that same error for
every timeout, producing no connection. -/
theorem C3_uninitialised_get_and_connection_fail :
    SearchEngineSettings.initial.get =
      .error (.SearchIndexError "Elasticsearch URL not initialised") ∧
    ∀ timeout : Nat,
      make_connection SearchEngineSettings.initial timeout =
        .error (.SearchIndexError "Elasticsearch URL not initialised") := by
  constructor
  · rfl
  · intro timeout
    rfl

/-- **C4** — After `init` with an empty-string URL override, `get`
always raises the blank-URL configuration error, whatever the
credentials passed and whatever the prior state. -/
theorem C4_empty_url_override_get_fails
    (cls : SearchEngineSettings) (user password : Option String) :
    (cls.init (some "") user password).get =
      .error (.SearchIndexError "Elasticsearch URL is blank") := by
  rfl

/-- Witness for C4 at a concrete state. -/
theorem C4_empty_url_override_get_fails_witness :
    (SearchEngineSettings.initial.init (some "") (some "u") (some "p")).get =
      .error (.SearchIndexError "Elasticsearch URL is blank") :=
  C4_empty_url_override_get_fails SearchEngineSettings.initial
    (some "u") (some "p")

/-- **C10** — `init` with `url = None` ignores the `user` and
`password` arguments (the stored credentials are unchanged) and sets
the URL to the built-in default; in particular after a first
`init(None, u, p)` on the fresh settings object, `get` returns the
default URL with no username and no password. -/
theorem C10_init_none_ignores_credentials
    (cls : SearchEngineSettings) (user password : Option String) :
    (cls.init none user password).user = cls.user ∧
    (cls.init none user password).password = cls.password ∧
    (cls.init none user password).url = some DEFAULT_ELASTICSEARCH_URL ∧
    ∀ u p : String,
      (SearchEngineSettings.initial.init none (some u) (some p)).get =
        .ok (DEFAULT_ELASTICSEARCH_URL, none, none) := by
  refine ⟨rfl, rfl, rfl, ?_⟩
  intro u p
  rfl

/-! ## Helper lemmas -/

theorem ESIndexState.lookupNamed_put (s : ESIndexState) (id : String) (d : Doc) :
    (s.put id d).lookupNamed id = some d := by
  simp [ESIndexState.put, ESIndexState.lookupNamed, List.find?]

theorem ESIndexState.filter_removeNamed (l : List (DocKey × Doc)) (id : String) :
    (l.filter (fun kd => ¬ kd.1 = DocKey.named id)).filter
      (fun kd => kd.1 = DocKey.named id) = [] := by
  induction l with
  | nil => rfl
  | cons kd rest ih =>
    by_cases h : kd.1 = DocKey.named id <;> simp [List.filter_cons, h, ih]

theorem ESIndexState.countNamed_put (s : ESIndexState) (id : String) (d : Doc) :
    (s.put id d).countNamed id = 1 := by
  simp [ESIndexState.put, ESIndexState.countNamed, ESIndexState.removeNamed,
        List.filter_cons, ESIndexState.filter_removeNamed]

theorem Engine.docCalls_record (eng : Engine) (c : RemoteCall) :
    (eng.record c).docCalls =
      (if c.isDocCall then eng.docCalls + 1 else eng.docCalls) := by
  simp only [Engine.record, Engine.docCalls, List.filter_cons]
  cases h : c.isDocCall <;> simp [h]

theorem Engine.refreshCalls_record (eng : Engine) (c : RemoteCall) :
    (eng.record c).refreshCalls =
      (if c = RemoteCall.refresh then eng.refreshCalls + 1 else eng.refreshCalls) := by
  simp only [Engine.record, Engine.refreshCalls, List.filter_cons]
  by_cases h : c = RemoteCall.refresh <;> simp [h]

/-! ## Claims about the query runner -/

/-- **C5** — For every query request in which the free-text key `q` is
missing or holds an empty value, `PackageSearchQuery.run` builds a
match-all clause; for every request whose `q` holds a non-empty term,
it builds the multi-field free-text match clause over the static
weighted fields. -/
theorem C5_free_text_term_or_match_all
    (query : QueryMod.QueryRequest)
    (exec : QueryMod.SearchSpec → QueryMod.QueryResponse) :
    ((query.q = none ∨ query.q = some "") →
      (QueryMod.PackageSearchQuery.run query exec).1.query =
        QueryMod.ESQuery.match_all) ∧
    (∀ s : String, query.q = some s → s ≠ "" →
      (QueryMod.PackageSearchQuery.run query exec).1.query =
        QueryMod.ESQuery.multi_match s QueryMod.multiMatchFields) := by
  constructor
  · rintro (h | h) <;> simp [QueryMod.PackageSearchQuery.run, h]
  · intro s hs hne
    simp [QueryMod.PackageSearchQuery.run, hs, hne]

/-- Witness for C5: the empty request gets match-all, while a request
carrying a non-empty term gets the weighted multi-match clause. -/
theorem C5_free_text_term_or_match_all_witness :
    (QueryMod.PackageSearchQuery.run
        ⟨none, none, none, none, none, none⟩ (fun _ => ⟨[], 0⟩)).1.query =
      QueryMod.ESQuery.match_all ∧
    (QueryMod.PackageSearchQuery.run
        ⟨some "open data", none, none, none, none, none⟩ (fun _ => ⟨[], 0⟩)).1.query =
      QueryMod.ESQuery.multi_match "open data" QueryMod.multiMatchFields :=
  ⟨(C5_free_text_term_or_match_all _ _).1 (Or.inl rfl),
   (C5_free_text_term_or_match_all _ _).2 "open data" rfl (by decide)⟩

/-- **C8** — A successful run of `PackageSearchQuery.run` returns a
mapping holding exactly the shaped result documents, the total hit
count and the facets mapping, and the facets mapping is always empty —
even when the request sets the facet flag — because facet
post-processing is the unimplemented placeholder. -/
theorem C8_run_shape_and_empty_facets
    (query : QueryMod.QueryRequest)
    (exec : QueryMod.SearchSpec → QueryMod.QueryResponse) :
    (QueryMod.PackageSearchQuery.run query exec).2 =
      { results := (exec (QueryMod.PackageSearchQuery.run query exec).1).hits,
        count := (exec (QueryMod.PackageSearchQuery.run query exec).1).total,
        facets := [] } := by
  cases hf : query.facet with
  | none =>
    simp [QueryMod.PackageSearchQuery.run, hf]
  | some b =>
    cases b <;>
      simp [QueryMod.PackageSearchQuery.run, hf,
            QueryMod.PackageSearchQuery._process_facets]

/-! ## Claims about `index_for` and the no-op writer -/

/-- **C9** — For every type value not registered in `_INDICES` (any
value other than `package`), `index_for` returns the
`NoopSearchIndex` class, whose `insert_dict`, `update_dict` and
`remove_dict` leave the engine untouched — no remote call, no log —
and raise nothing, for every input dictionary. -/
theorem C9_unregistered_type_gets_noop
    (ty : String) (h : ty ≠ "package") (eng : Engine) (d : Doc) :
    InitMod.index_for ty = InitMod.IndexKind.noopSearchIndex ∧
    InitMod.NoopSearchIndex.insert_dict eng d = (eng, Except.ok ()) ∧
    InitMod.NoopSearchIndex.update_dict eng d = (eng, Except.ok ()) ∧
    InitMod.NoopSearchIndex.remove_dict eng d = (eng, Except.ok ()) := by
  refine ⟨?_, rfl, rfl, rfl⟩
  simp [InitMod.index_for, InitMod._INDICES, List.find?, Ne.symm h]

/-- Witness for C9 at an unregistered type value. -/
theorem C9_unregistered_type_gets_noop_witness :
    InitMod.index_for "group" = InitMod.IndexKind.noopSearchIndex ∧
    InitMod.NoopSearchIndex.insert_dict Engine.empty [("id", "x")] =
      (Engine.empty, Except.ok ()) ∧
    InitMod.NoopSearchIndex.update_dict Engine.empty [("id", "x")] =
      (Engine.empty, Except.ok ()) ∧
    InitMod.NoopSearchIndex.remove_dict Engine.empty [("id", "x")] =
      (Engine.empty, Except.ok ()) :=
  C9_unregistered_type_gets_noop "group" (by decide) Engine.empty [("id", "x")]

/-! ## Claims about remove on an absent id (C1) -/

/-- **C1, counterexample** — The claim quantifies over *every*
implementation of the remove operation, but the package-root
`SearchIndex.remove_dict` (\_\_init\_\_.py) wraps the engine's
not-found error into `ElasticsearchIndexError` and raises it: removing
an id absent from the index does *not* complete without raising
there. -/
theorem C1_counterexample_root_remove_raises :
    (InitMod.SearchIndex.remove_dict Engine.empty [("id", "missing")] none).2 =
      Except.error (PyErr.ElasticsearchIndexError
        ("Error removing document: " ++ ESException.NotFoundError.message)) := by
  rfl

/-- **C1, amended** — Removing a mapping whose id is absent from the
index completes without raising for the index-module writers — the
`PackageSearchIndex` of index.py logs the not-found condition and
continues, and the base and no-op writers there do nothing — and for
the package-root `NoopSearchIndex`; the package-root `SearchIndex`
instead wraps the not-found error and raises. -/
theorem C1_amended_remove_absent_id_benign
    (eng : Engine) (d : Doc) (did : String)
    (hid : d.get "id" = some did)
    (habs : eng.idx.lookupNamed did = none) :
    (IndexMod.PackageSearchIndex.remove_dict eng d none).2 = Except.ok () ∧
    (IndexMod.SearchIndex.remove_dict eng d).2 = Except.ok () ∧
    (IndexMod.NoopSearchIndex.remove_dict eng d).2 = Except.ok () ∧
    (InitMod.NoopSearchIndex.remove_dict eng d).2 = Except.ok () := by
  refine ⟨?_, rfl, rfl, rfl⟩
  simp [IndexMod.PackageSearchIndex.remove_dict, es_delete, Engine.record,
        Engine.log, hid, habs]

/-- Witness for C1 amended: an id absent from the empty index. -/
theorem C1_amended_remove_absent_id_benign_witness :
    (IndexMod.PackageSearchIndex.remove_dict Engine.empty
        [("id", "missing")] none).2 = Except.ok () ∧
    (IndexMod.SearchIndex.remove_dict Engine.empty [("id", "missing")]).2 =
      Except.ok () ∧
    (IndexMod.NoopSearchIndex.remove_dict Engine.empty [("id", "missing")]).2 =
      Except.ok () ∧
    (InitMod.NoopSearchIndex.remove_dict Engine.empty [("id", "missing")]).2 =
      Except.ok () :=
  C1_amended_remove_absent_id_benign Engine.empty [("id", "missing")]
    "missing" rfl rfl

/-! ## Claims about update on an absent id (C2) -/

/-- **C2, counterexample** — Through the package-root
`SearchIndex.update_dict` (\_\_init\_\_.py), updating a document whose
id is absent falls back to `insert_dict`, which calls the engine's
`index` API *without an id*: the run raises no error, but the end
state stores the document under an engine-generated key, so the index
holds **zero** copies keyed by the document's id — not exactly one. -/
theorem C2_counterexample_root_update_not_keyed_by_id :
    (InitMod.SearchIndex.update_dict Engine.empty [("id", "d1")] none none).2 =
      Except.ok () ∧
    (InitMod.SearchIndex.update_dict Engine.empty [("id", "d1")]
        none none).1.idx.docs =
      [(DocKey.auto 0, [("id", "d1")])] ∧
    (InitMod.SearchIndex.update_dict Engine.empty [("id", "d1")]
        none none).1.idx.countNamed "d1" = 0 := by
  refine ⟨rfl, rfl, rfl⟩

/-- **C2, amended** — For the `PackageSearchIndex` of index.py,
`update_dict` on a mapping whose id is absent from the index results
in an insert keyed by that id: the end state has the document present
and exactly one copy under its id, and no error is raised.  (The
package-root `SearchIndex.update_dict` also falls back to an insert
without raising, but stores the document under an engine-generated
key rather than its id.) -/
theorem C2_amended_package_update_absent_id_inserts
    (eng : Engine) (d : Doc) (did : String) (defer_commit : Bool)
    (hid : d.get "id" = some did)
    (habs : eng.idx.lookupNamed did = none) :
    (IndexMod.PackageSearchIndex.update_dict eng d defer_commit none none).2 =
      Except.ok () ∧
    (IndexMod.PackageSearchIndex.update_dict eng d defer_commit
        none none).1.idx.lookupNamed did = some d ∧
    (IndexMod.PackageSearchIndex.update_dict eng d defer_commit
        none none).1.idx.countNamed did = 1 := by
  cases defer_commit <;>
    simp [IndexMod.PackageSearchIndex.update_dict,
          IndexMod.PackageSearchIndex.index_package, es_index, es_refresh,
          Engine.record, hid, ESIndexState.lookupNamed_put,
          ESIndexState.countNamed_put]

/-- Witness for C2 amended: a fresh document inserted into the empty
index via the package writer's update. -/
theorem C2_amended_package_update_absent_id_inserts_witness :
    (IndexMod.PackageSearchIndex.update_dict Engine.empty
        [("id", "d1"), ("title", "t")] false none none).2 = Except.ok () ∧
    (IndexMod.PackageSearchIndex.update_dict Engine.empty
        [("id", "d1"), ("title", "t")] false none none).1.idx.lookupNamed "d1" =
      some [("id", "d1"), ("title", "t")] ∧
    (IndexMod.PackageSearchIndex.update_dict Engine.empty
        [("id", "d1"), ("title", "t")] false none none).1.idx.countNamed "d1" = 1 :=
  C2_amended_package_update_absent_id_inserts Engine.empty
    [("id", "d1"), ("title", "t")] "d1" false rfl rfl

/-! ## Claims about the exception-wrapping policy (C6) -/

/-- **C6, counterexample** — `SearchIndex.clear` (index.py), the
writer's clear-all (delete-and-recreate) operation, has no exception
handler: when the engine-level exception `connection refused` is
raised by its index-delete call, it escapes **unwrapped** — it is not
re-raised as the local indexing error — falsifying "no engine
exception escapes unwrapped" for the clear-all operation. -/
theorem C6_counterexample_clear_escapes_unwrapped :
    (IndexMod.SearchIndex.clear Engine.empty
        (some (ESException.other "connection refused")) none).2 =
      Except.error (PyErr.engine "connection refused") := by
  rfl

/-- **C6, amended** — The document-level writer operations do follow
the wrap-and-re-raise policy: for every engine-level exception raised
by their remote call (other than the not-found error, which
`remove_dict`/`update_dict` special-case as a benign no-op), index.py's
`index_package` and `remove_dict` re-raise it as `SearchIndexError`
and the package-root `insert_dict`, `update_dict` and `remove_dict`
re-raise it as `ElasticsearchIndexError`, each carrying the original
message.  Neither clear-all operation follows the policy: index.py's
`SearchIndex.clear` has no handler, so engine exceptions escape
unwrapped; and the package-root `clear_all` never reaches the engine
at all — its body raises `NameError` on the undefined module-global
`es` before any remote call, and the broad handler logs and swallows
that, returning normally. -/
theorem C6_amended_wrap_policy
    (eng : Engine) (d : Doc) (did : String) (e : ESException)
    (defer_commit : Bool)
    (hid : d.get "id" = some did)
    (hnf : e ≠ ESException.NotFoundError) :
    (IndexMod.PackageSearchIndex.index_package eng (some d) defer_commit
        (some e) none).2 =
      Except.error (.SearchIndexError
        ("Error indexing package: " ++ e.message)) ∧
    (IndexMod.PackageSearchIndex.remove_dict eng d (some e)).2 =
      Except.error (.SearchIndexError
        ("Error removing package: " ++ e.message)) ∧
    (InitMod.SearchIndex.insert_dict eng d (some e)).2 =
      Except.error (.ElasticsearchIndexError
        ("Error inserting document: " ++ e.message)) ∧
    (InitMod.SearchIndex.update_dict eng d (some e) none).2 =
      Except.error (.ElasticsearchIndexError
        ("Error updating document: " ++ e.message)) ∧
    (InitMod.SearchIndex.remove_dict eng d (some e)).2 =
      Except.error (.ElasticsearchIndexError
        ("Error removing document: " ++ e.message)) ∧
    (IndexMod.SearchIndex.clear eng (some e) none).2 =
      Except.error (.engine e.message) ∧
    ((InitMod.clear_all eng).2 = Except.ok () ∧
     (InitMod.clear_all eng).1.trace = eng.trace) := by
  cases e with
  | NotFoundError => exact absurd rfl hnf
  | other m =>
    refine ⟨?_, ?_, ?_, ?_, ?_, ?_, ?_, ?_⟩
    · simp [IndexMod.PackageSearchIndex.index_package, es_index, hid]
    · simp [IndexMod.PackageSearchIndex.remove_dict, es_delete, hid]
    · simp [InitMod.SearchIndex.insert_dict, es_index]
    · simp [InitMod.SearchIndex.update_dict, es_update, hid]
    · simp [InitMod.SearchIndex.remove_dict, es_delete, hid]
    · simp [IndexMod.SearchIndex.clear, es_indices_delete]
    · rfl
    · simp [InitMod.clear_all, Engine.log]

/-- Witness for C6 amended at a concrete engine failure. -/
theorem C6_amended_wrap_policy_witness :
    (IndexMod.PackageSearchIndex.index_package Engine.empty
        (some [("id", "x")]) false (some (ESException.other "boom")) none).2 =
      Except.error (.SearchIndexError "Error indexing package: boom") ∧
    (IndexMod.PackageSearchIndex.remove_dict Engine.empty [("id", "x")]
        (some (ESException.other "boom"))).2 =
      Except.error (.SearchIndexError "Error removing package: boom") ∧
    (InitMod.SearchIndex.insert_dict Engine.empty [("id", "x")]
        (some (ESException.other "boom"))).2 =
      Except.error (.ElasticsearchIndexError "Error inserting document: boom") ∧
    (InitMod.SearchIndex.update_dict Engine.empty [("id", "x")]
        (some (ESException.other "boom")) none).2 =
      Except.error (.ElasticsearchIndexError "Error updating document: boom") ∧
    (InitMod.SearchIndex.remove_dict Engine.empty [("id", "x")]
        (some (ESException.other "boom"))).2 =
      Except.error (.ElasticsearchIndexError "Error removing document: boom") ∧
    (IndexMod.SearchIndex.clear Engine.empty
        (some (ESException.other "boom")) none).2 =
      Except.error (.engine "boom") ∧
    ((InitMod.clear_all Engine.empty).2 = Except.ok () ∧
     (InitMod.clear_all Engine.empty).1.trace = Engine.empty.trace) :=
  C6_amended_wrap_policy Engine.empty [("id", "x")] "x"
    (ESException.other "boom") false rfl (by decide)

/-! ## Claims about remote-call counts (C7) -/

/-- **C7, counterexample** — One invocation of the package-root
`SearchIndex.update_dict` (\_\_init\_\_.py) on a document whose id is
absent from the index issues **two** document-level remote calls: the
failed `update` and the fallback `index`, falsifying "no invocation of
update_dict ever issues two or more document-level remote calls". -/
theorem C7_counterexample_root_update_two_doc_calls :
    (InitMod.SearchIndex.update_dict Engine.empty [("id", "d1")]
        none none).1.docCalls = 2 ∧
    Engine.empty.docCalls = 0 := by
  refine ⟨rfl, rfl⟩

/-- **C7, amended** — With a healthy or faulty engine alike, index.py's
`index_package` issues exactly one document-level remote call and at
most one refresh, its `remove_dict` exactly one document-level call
and no refresh (the `defer_commit` NameError precludes the refresh),
and the package-root `insert_dict` and `remove_dict` exactly one
document-level call each.  The package-root `update_dict` issues one
or two document-level calls — exactly two precisely on the not-found
fallback, where the failed update is followed by the fallback
insert. -/
theorem C7_amended_remote_call_counts
    (eng : Engine) (d : Doc) (did : String) (defer_commit : Bool)
    (fIndex fRefresh fDelete fInsert : Option ESException)
    (hid : d.get "id" = some did) :
    ((IndexMod.PackageSearchIndex.index_package eng (some d) defer_commit
        fIndex fRefresh).1.docCalls = eng.docCalls + 1 ∧
     (IndexMod.PackageSearchIndex.index_package eng (some d) defer_commit
        fIndex fRefresh).1.refreshCalls ≤ eng.refreshCalls + 1) ∧
    ((IndexMod.PackageSearchIndex.remove_dict eng d fDelete).1.docCalls =
        eng.docCalls + 1 ∧
     (IndexMod.PackageSearchIndex.remove_dict eng d fDelete).1.refreshCalls =
        eng.refreshCalls) ∧
    (InitMod.SearchIndex.insert_dict eng d fInsert).1.docCalls =
      eng.docCalls + 1 ∧
    (InitMod.SearchIndex.remove_dict eng d fDelete).1.docCalls =
      eng.docCalls + 1 ∧
    (eng.docCalls + 1 ≤
        (InitMod.SearchIndex.update_dict eng d fIndex fInsert).1.docCalls ∧
     (InitMod.SearchIndex.update_dict eng d fIndex fInsert).1.docCalls ≤
        eng.docCalls + 2) ∧
    (eng.idx.lookupNamed did = none →
      (InitMod.SearchIndex.update_dict eng d none fInsert).1.docCalls =
        eng.docCalls + 2) := by
  refine ⟨⟨?_, ?_⟩, ⟨?_, ?_⟩, ?_, ?_, ⟨?_, ?_⟩, ?_⟩
  · cases fIndex with
    | some e =>
      simp [IndexMod.PackageSearchIndex.index_package, es_index,
            Engine.docCalls, Engine.record, Engine.log,
            List.filter_cons, RemoteCall.isDocCall, hid]
    | none =>
      cases defer_commit <;> cases fRefresh <;>
        simp [IndexMod.PackageSearchIndex.index_package, es_index, es_refresh,
              Engine.docCalls, Engine.record, Engine.log,
              List.filter_cons, RemoteCall.isDocCall, hid]
  · cases fIndex with
    | some e =>
      simp [IndexMod.PackageSearchIndex.index_package, es_index,
            Engine.refreshCalls, Engine.record, Engine.log,
            List.filter_cons, hid]
    | none =>
      cases defer_commit <;> cases fRefresh <;>
        simp [IndexMod.PackageSearchIndex.index_package, es_index, es_refresh,
              Engine.refreshCalls, Engine.record, Engine.log,
              List.filter_cons, hid]
  · rcases fDelete with _ | e
    case _ =>
      cases h : eng.idx.lookupNamed did <;>
        simp [IndexMod.PackageSearchIndex.remove_dict, es_delete,
              Engine.docCalls, Engine.record, Engine.log,
              List.filter_cons, RemoteCall.isDocCall, hid, h]
    case _ =>
      cases e <;>
        simp [IndexMod.PackageSearchIndex.remove_dict, es_delete,
              Engine.docCalls, Engine.record, Engine.log,
              List.filter_cons, RemoteCall.isDocCall, hid]
  · rcases fDelete with _ | e
    case _ =>
      cases h : eng.idx.lookupNamed did <;>
        simp [IndexMod.PackageSearchIndex.remove_dict, es_delete,
              Engine.refreshCalls, Engine.record, Engine.log,
              List.filter_cons, hid, h]
    case _ =>
      cases e <;>
        simp [IndexMod.PackageSearchIndex.remove_dict, es_delete,
              Engine.refreshCalls, Engine.record, Engine.log,
              List.filter_cons, hid]
  · cases fInsert <;>
      simp [InitMod.SearchIndex.insert_dict, es_index,
            Engine.docCalls, Engine.record, List.filter_cons,
            RemoteCall.isDocCall]
  · rcases fDelete with _ | e
    case _ =>
      cases h : eng.idx.lookupNamed did <;>
        simp [InitMod.SearchIndex.remove_dict, es_delete,
              Engine.docCalls, Engine.record, List.filter_cons,
              RemoteCall.isDocCall, hid, h]
    case _ =>
      simp [InitMod.SearchIndex.remove_dict, es_delete,
            Engine.docCalls, Engine.record, List.filter_cons,
            RemoteCall.isDocCall, hid]
  · rcases fIndex with _ | e
    case _ =>
      cases h : eng.idx.lookupNamed did <;> cases fInsert <;>
        simp [InitMod.SearchIndex.update_dict, InitMod.SearchIndex.insert_dict,
              es_update, es_index, Engine.docCalls, Engine.record,
              List.filter_cons, RemoteCall.isDocCall, hid, h]
    case _ =>
      cases e <;> cases fInsert <;>
        simp [InitMod.SearchIndex.update_dict, InitMod.SearchIndex.insert_dict,
              es_update, es_index, Engine.docCalls, Engine.record,
              List.filter_cons, RemoteCall.isDocCall, hid]
  · rcases fIndex with _ | e
    case _ =>
      cases h : eng.idx.lookupNamed did <;> cases fInsert <;>
        simp [InitMod.SearchIndex.update_dict, InitMod.SearchIndex.insert_dict,
              es_update, es_index, Engine.docCalls, Engine.record,
              List.filter_cons, RemoteCall.isDocCall, hid, h]
    case _ =>
      cases e <;> cases fInsert <;>
        simp [InitMod.SearchIndex.update_dict, InitMod.SearchIndex.insert_dict,
              es_update, es_index, Engine.docCalls, Engine.record,
              List.filter_cons, RemoteCall.isDocCall, hid]
  · intro habs
    cases fInsert <;>
      simp [InitMod.SearchIndex.update_dict, InitMod.SearchIndex.insert_dict,
            es_update, es_index, Engine.docCalls, Engine.record,
            List.filter_cons, RemoteCall.isDocCall, hid, habs]

/-- Witness for C7 amended at concrete inputs: one call for the
package writer's upsert, two for the package-root update on an absent
id. -/
theorem C7_amended_remote_call_counts_witness :
    (IndexMod.PackageSearchIndex.index_package Engine.empty
        (some [("id", "x")]) false none none).1.docCalls =
      Engine.empty.docCalls + 1 ∧
    (InitMod.SearchIndex.update_dict Engine.empty [("id", "x")]
        none none).1.docCalls = Engine.empty.docCalls + 2 :=
  ⟨(C7_amended_remote_call_counts Engine.empty [("id", "x")] "x" false
      none none none none rfl).1.1,
   (C7_amended_remote_call_counts Engine.empty [("id", "x")] "x" false
      none none none none rfl).2.2.2.2.2 rfl⟩
